import Mathlib

/-!
# Verification of `vold` `PublicVolume` (src/vold/PublicVolume.cpp)

A shallow embedding of the mount/unmount/format lifecycle controller for one
public removable volume.  External collaborators (filesystem check/mount/format,
`fs_prepare_dir`, `access`, `fork`, the Android property store, …) are modelled
by an `Env` oracle that supplies their results and by an explicit trace of
`ExtCall`s recording which external operations the code invoked, in order.
`status_t` return values are modelled as `Int` (0 = `OK`, negative errno codes
on failure).
-/

namespace PublicVolume

/-- `- EIO` magnitude (errno 5). -/
def EIO : Int := 5

/-- `-EINVAL` magnitude (errno 22). -/
def EINVAL : Int := 22

/-- `EEXIST` (errno 17), tolerated by `initAsecStage`'s `mkdir`. -/
def EEXIST : Int := 17

/-- `status_t OK`. -/
def OK : Int := 0

/-- `static const char* kFusePath`: the external translator binary exec'd in
the forked child (the child side of `fork` is not modelled further). -/
def kFusePath : String := "/system/bin/sdcard"

/-- `static const char* kAsecPath`. -/
def kAsecPath : String := "/mnt/secure/asec"

/-- The member state of one `PublicVolume` object (including the `VolumeBase`
fields the unit reads/writes: id, mount flags, internal path, user path). -/
structure VolState where
  id : String
  devPath : String
  fsType : String
  fsUuid : String
  fsLabel : String
  visible : Bool
  primary : Bool
  internalPath : String
  path : String
  rawPath : String
  fuseDefault : String
  fuseRead : String
  fuseWrite : String
  fusePid : Int
deriving Repr, DecidableEq

/-- The nine Android system properties this unit reads and writes, one record
field per property key: `updatePath` is `"sys.update.path"`, `updateStorage`
is `"sys.update.storage"`, `updateTrigger` is `"sys.update.trigger"`, and
likewise `startup*` for `"sys.startup.*"` and `cust*` for `"sys.cust.*"`.
An unset property reads as `""` (`property_get` with default `""`). -/
structure Props where
  updatePath : String
  updateStorage : String
  updateTrigger : String
  startupPath : String
  startupStorage : String
  startupTrigger : String
  custPath : String
  custStorage : String
  custTrigger : String
deriving Repr, DecidableEq

/-- One external operation invoked by the unit, recorded in call order. -/
inductive ExtCall where
  | readMetadataUntrusted (dev : String)
  | notifyFsType (v : String)
  | notifyFsUuid (v : String)
  | notifyFsLabel (v : String)
  | vfatCheck (dev : String)
  | ntfsCheck (dev : String)
  | prepareDir (path : String)
  | vfatMount (dev path : String)
  | ntfsDoMount (dev path : String)
  | accessFOK (path : String)
  | accessRX (path : String)
  | renameCall (src dst : String)
  | mkdirCall (path : String)
  | bindMount (src dst : String)
  | getDevice (path : String)
  | forkCall
  | waitFuseReady (path : String)
  | killTerm (pid : Int)
  | waitPid (pid : Int)
  | forceUnmount (path : String)
  | rmdirCall (path : String)
  | wipeBlockDevice (dev : String)
  | vfatFormat (dev : String)
deriving Repr, DecidableEq

/-- Results of the external calls, supplied by the world.  Integer result
fields follow the conventions of the C functions they model (0 = success);
`*Errno` fields are the `errno` value observed after the matching failure. -/
structure Env where
  metaFsType : String
  metaFsUuid : String
  metaFsLabel : String
  vfatCheckRes : Int
  ntfsCheckRes : Int
  prepareDirRes : String → Int
  prepareErrno : Int
  vfatMountRes : Int
  -- `Ntfs::doMount`'s result is never read by the source beyond logging it,
  -- so this field is unused by the embedding (see `doMountNative`).
  ntfsMountRes : Int
  fileExists : String → Bool
  accessRX : String → Bool
  mkdirOk : Bool
  mkdirErrno : Int
  forkRes : Int
  forkErrno : Int
  wipeRes : Int
  formatRes : Int
  formatErrno : Int

/-- Result of one lifecycle operation: the returned `status_t`, the resulting
object state, the resulting property store, and the trace of external calls. -/
structure StepOut where
  res : Int
  st : VolState
  props : Props
  calls : List ExtCall

/-- `property_get_bool` value parsing (libcutils semantics, modelled from its
documented behaviour as an external collaborator): one-character values
`"0"`/`"n"` and `"1"`/`"y"`, longer values `"no"`/`"false"`/`"off"` and
`"yes"`/`"true"`/`"on"`, anything else the default. -/
def parseBool (s : String) (dflt : Bool) : Bool :=
  if s.length = 1 then
    if s = "0" ∨ s = "n" then false
    else if s = "1" ∨ s = "y" then true
    else dflt
  else if 1 < s.length then
    if s = "no" ∨ s = "false" ∨ s = "off" then false
    else if s = "yes" ∨ s = "true" ∨ s = "on" then true
    else dflt
  else dflt

/-- `PublicVolume::PublicVolume(dev_t device)`: sets the id from the device's
major/minor numbers (`StringPrintf("public:%u:%u", …)`, here `Nat.toString` of
the extracted numbers) and the device node path; `mFusePid(0)`.  The mount
flags, paths and fs metadata start cleared (set later by external setters /
`readMetadata`). -/
def mkPublicVolume (majorNum minorNum : Nat) : VolState :=
  let volId := "public:" ++ toString majorNum ++ ":" ++ toString minorNum
  { id := volId
    devPath := "/dev/block/vold/" ++ volId
    fsType := ""
    fsUuid := ""
    fsLabel := ""
    visible := false
    primary := false
    internalPath := ""
    path := ""
    rawPath := ""
    fuseDefault := ""
    fuseRead := ""
    fuseWrite := ""
    fusePid := 0 }

/-- `VolumeBase::setMountFlags`, as used by the manager before mounting. -/
def setMountFlags (st : VolState) (visible primary : Bool) : VolState :=
  { st with visible := visible, primary := primary }

/-- `PublicVolume::readMetadata`: refreshes fsType/fsUuid/fsLabel from the
untrusted-media reader and unconditionally emits the three change
notifications. -/
def readMetadata (env : Env) (st : VolState) : VolState × List ExtCall :=
  let st := { st with fsType := env.metaFsType, fsUuid := env.metaFsUuid,
                      fsLabel := env.metaFsLabel }
  (st, [ExtCall.readMetadataUntrusted st.devPath, ExtCall.notifyFsType st.fsType,
        ExtCall.notifyFsUuid st.fsUuid, ExtCall.notifyFsLabel st.fsLabel])

/-- The stable name: `getId()`, overridden by `mFsUuid` when non-empty. -/
def stableNameOf (st : VolState) : String :=
  if st.fsUuid = "" then st.id else st.fsUuid

/-- `PublicVolume::initAsecStage`: recover the legacy secure dir (short-circuit
`!access(legacy,R|X) && access(secure,R|X)`, rename result only logged), mkdir
the secure dir tolerating `EEXIST`, then bind-mount it onto `kAsecPath`. -/
def initAsecStage (env : Env) (st : VolState) : Int × List ExtCall :=
  let legacyPath := st.rawPath ++ "/android_secure"
  let securePath := st.rawPath ++ "/.android_secure"
  let accessCalls : List ExtCall :=
    if env.accessRX legacyPath then
      if env.accessRX securePath then
        [ExtCall.accessRX legacyPath, ExtCall.accessRX securePath]
      else
        [ExtCall.accessRX legacyPath, ExtCall.accessRX securePath,
         ExtCall.renameCall legacyPath securePath]
    else [ExtCall.accessRX legacyPath]
  let mkdirCalls := accessCalls ++ [ExtCall.mkdirCall securePath]
  if ¬ env.mkdirOk ∧ env.mkdirErrno ≠ EEXIST then
    (-env.mkdirErrno, mkdirCalls)
  else
    (OK, mkdirCalls ++ [ExtCall.bindMount securePath kAsecPath])

/-- The cust hook block (`#ifdef CUSTCFG_UPGRADE`, reached when neither earlier
hook fired): skip if the pre-read trigger flag is set; else `access` the
trigger file and, when present, claim the cust slot. -/
def hookCust (env : Env) (stableName custPath : String) (custTrigger : Bool)
    (props : Props) : Props × List ExtCall :=
  if custTrigger then (props, [])
  else if env.fileExists custPath then
    ({ props with custPath := custPath, custStorage := stableName, custTrigger := "1" },
     [ExtCall.accessFOK custPath])
  else (props, [ExtCall.accessFOK custPath])

/-- The startup hook block (`#ifdef STARTUP_SERVICE`): skip if claimed (fall
through to the cust hook); fire and stop (`goto uevent_handled`) when the
trigger file exists; else fall through to the cust hook. -/
def hookStartup (env : Env) (stableName startupPath custPath : String)
    (startupTrigger custTrigger : Bool) (props : Props) : Props × List ExtCall :=
  if startupTrigger then hookCust env stableName custPath custTrigger props
  else if env.fileExists startupPath then
    ({ props with startupPath := startupPath, startupStorage := stableName,
                  startupTrigger := "1" },
     [ExtCall.accessFOK startupPath])
  else
    let o := hookCust env stableName custPath custTrigger props
    (o.1, ExtCall.accessFOK startupPath :: o.2)

/-- The OTA-update hook block (`#ifdef OFFLINE_OTAPROC`), first in the chain:
skip if claimed; fire and stop (`goto uevent_handled`) when the trigger file
exists; else fall through to the startup hook. -/
def hookUpdate (env : Env) (stableName updatePath startupPath custPath : String)
    (updateTrigger startupTrigger custTrigger : Bool) (props : Props) :
    Props × List ExtCall :=
  if updateTrigger then
    hookStartup env stableName startupPath custPath startupTrigger custTrigger props
  else if env.fileExists updatePath then
    ({ props with updateStorage := stableName, updatePath := updatePath,
                  updateTrigger := "1" },
     [ExtCall.accessFOK updatePath])
  else
    let o := hookStartup env stableName startupPath custPath startupTrigger custTrigger props
    (o.1, ExtCall.accessFOK updatePath :: o.2)

/-- Tail of `doMount` from the visibility check: non-visible volumes return
`OK` without spawning FUSE; otherwise sample the write-view device, fork
(recording the result in `mFusePid`), fail with `-errno` when the fork failed,
else block in the readiness polling loop (one `waitFuseReady` call) and return
`OK`. -/
def doMountSpawn (env : Env) (st : VolState) (props : Props) : StepOut :=
  if st.visible = false then ⟨OK, st, props, []⟩
  else
    let st := { st with fusePid := env.forkRes }
    if st.fusePid = -1 then
      ⟨-env.forkErrno, st, props, [ExtCall.getDevice st.fuseWrite, ExtCall.forkCall]⟩
    else
      ⟨OK, st, props,
       [ExtCall.getDevice st.fuseWrite, ExtCall.forkCall,
        ExtCall.waitFuseReady st.fuseWrite]⟩

/-- Tail of `doMount` from `uevent_handled:`: primary volumes run
`initAsecStage` (result discarded), then the spawn tail. -/
def doMountAsec (env : Env) (st : VolState) (props : Props) : StepOut :=
  let o := doMountSpawn env st props
  if st.primary then ⟨o.res, o.st, o.props, (initAsecStage env st).2 ++ o.calls⟩
  else o

/-- Tail of `doMount` from the post-mount hook chain onwards. -/
def doMountHooks (env : Env) (st : VolState) (props : Props)
    (stableName updatePath startupPath custPath : String)
    (updateTrigger startupTrigger custTrigger : Bool) : StepOut :=
  let h := hookUpdate env stableName updatePath startupPath custPath
             updateTrigger startupTrigger custTrigger props
  let o := doMountAsec env st h.1
  ⟨o.res, o.st, o.props, h.2 ++ o.calls⟩

/-- Tail of `doMount` performing the native mount.  On the ntfs path a failed
`Ntfs::doMount` is only logged (the source has no `return` there) and
execution continues into the hook chain; on the vfat path a failed
`vfat::Mount` aborts with `- EIO`. -/
def doMountNative (env : Env) (st : VolState) (props : Props) (ntfs : Bool)
    (stableName updatePath startupPath custPath : String)
    (updateTrigger startupTrigger custTrigger : Bool) : StepOut :=
  if ntfs then
    let o := doMountHooks env st props stableName updatePath startupPath custPath
               updateTrigger startupTrigger custTrigger
    ⟨o.res, o.st, o.props, ExtCall.ntfsDoMount st.devPath st.rawPath :: o.calls⟩
  else if env.vfatMountRes ≠ 0 then
    ⟨- EIO, st, props, [ExtCall.vfatMount st.devPath st.rawPath]⟩
  else
    let o := doMountHooks env st props stableName updatePath startupPath custPath
               updateTrigger startupTrigger custTrigger
    ⟨o.res, o.st, o.props, ExtCall.vfatMount st.devPath st.rawPath :: o.calls⟩

/-- The session-path part of `doMount`'s state update: set the raw path and
the three bridged view paths from the stable name, the internal path to the
raw path, and the user-facing path to the `/storage` location only for visible
volumes. -/
def sessionSt (st : VolState) : VolState :=
  let stableName := stableNameOf st
  let st := { st with rawPath := "/mnt/media_rw/" ++ stableName,
                      fuseDefault := "/mnt/runtime/default/" ++ stableName,
                      fuseRead := "/mnt/runtime/read/" ++ stableName,
                      fuseWrite := "/mnt/runtime/write/" ++ stableName }
  { st with internalPath := st.rawPath,
            path := if st.visible then "/storage/" ++ stableName else st.rawPath }

/-- Tail of `doMount` after the probe: compute the stable name and the four
session paths, pre-read the hook trigger paths/flags, set the internal and
user-facing paths (`sessionSt`), prepare the four directories (short-circuit
`||`, failure aborts with `-errno`), then the native-mount tail. -/
def doMountPaths (env : Env) (st : VolState) (props : Props) (ntfs : Bool) : StepOut :=
  let stableName := stableNameOf st
  let st := sessionSt st
  let updatePath := st.rawPath ++ "/OTA/update.zip"
  let updateTrigger := parseBool props.updateTrigger false
  let startupPath := st.rawPath ++ "/startup/start_up.sh"
  let startupTrigger := parseBool props.startupTrigger false
  let custPath := st.rawPath ++ "/cust/cust_update.zip"
  let custTrigger := parseBool props.custTrigger false
  if env.prepareDirRes st.rawPath ≠ 0 then
    ⟨-env.prepareErrno, st, props, [ExtCall.prepareDir st.rawPath]⟩
  else if env.prepareDirRes st.fuseDefault ≠ 0 then
    ⟨-env.prepareErrno, st, props,
     [ExtCall.prepareDir st.rawPath, ExtCall.prepareDir st.fuseDefault]⟩
  else if env.prepareDirRes st.fuseRead ≠ 0 then
    ⟨-env.prepareErrno, st, props,
     [ExtCall.prepareDir st.rawPath, ExtCall.prepareDir st.fuseDefault,
      ExtCall.prepareDir st.fuseRead]⟩
  else if env.prepareDirRes st.fuseWrite ≠ 0 then
    ⟨-env.prepareErrno, st, props,
     [ExtCall.prepareDir st.rawPath, ExtCall.prepareDir st.fuseDefault,
      ExtCall.prepareDir st.fuseRead, ExtCall.prepareDir st.fuseWrite]⟩
  else
    let o := doMountNative env st props ntfs stableName updatePath startupPath custPath
               updateTrigger startupTrigger custTrigger
    ⟨o.res, o.st, o.props,
     [ExtCall.prepareDir st.rawPath, ExtCall.prepareDir st.fuseDefault,
      ExtCall.prepareDir st.fuseRead, ExtCall.prepareDir st.fuseWrite] ++ o.calls⟩

/-- `PublicVolume::doMount`: metadata refresh, supported-type gate, the
vfat-then-ntfs probe (`- EIO` when both checks fail), then the path/mount/hook
tail. -/
def doMount (env : Env) (st0 : VolState) (props : Props) : StepOut :=
  let r := readMetadata env st0
  let st := r.1
  if st.fsType ≠ "vfat" ∧ st.fsType ≠ "ntfs" then ⟨- EIO, st, props, r.2⟩
  else if env.vfatCheckRes ≠ 0 then
    if env.ntfsCheckRes = 0 then
      let o := doMountPaths env st props true
      ⟨o.res, o.st, o.props,
       r.2 ++ [ExtCall.vfatCheck st.devPath, ExtCall.ntfsCheck st.devPath] ++ o.calls⟩
    else
      ⟨- EIO, st, props, r.2 ++ [ExtCall.vfatCheck st.devPath, ExtCall.ntfsCheck st.devPath]⟩
  else
    let o := doMountPaths env st props false
    ⟨o.res, o.st, o.props, r.2 ++ [ExtCall.vfatCheck st.devPath] ++ o.calls⟩

/-- `PublicVolume::doUnmount`: signal-and-reap the FUSE pid when positive,
force-unmount the asec path, the three views and the raw path, remove the four
directories, clear the four path fields, then clear each hook slot whose stored
storage name equals the recomputed stable name.  Always returns `OK`. -/
def doUnmount (env : Env) (st : VolState) (props : Props) : StepOut :=
  let pidSteps : List ExtCall :=
    if st.fusePid > 0 then [ExtCall.killTerm st.fusePid, ExtCall.waitPid st.fusePid]
    else []
  let st1 :=
    if st.fusePid > 0 then { st with fusePid := 0 } else st
  let calls := pidSteps ++
    [ExtCall.forceUnmount kAsecPath,
     ExtCall.forceUnmount st1.fuseDefault, ExtCall.forceUnmount st1.fuseRead,
     ExtCall.forceUnmount st1.fuseWrite, ExtCall.forceUnmount st1.rawPath,
     ExtCall.rmdirCall st1.fuseDefault, ExtCall.rmdirCall st1.fuseRead,
     ExtCall.rmdirCall st1.fuseWrite, ExtCall.rmdirCall st1.rawPath]
  let st2 := { st1 with fuseDefault := "", fuseRead := "", fuseWrite := "", rawPath := "" }
  let stableName := if st2.fsUuid = "" then st2.id else st2.fsUuid
  let props :=
    if props.updateStorage = stableName then
      { props with updatePath := "", updateStorage := "", updateTrigger := "0" }
    else props
  let props :=
    if props.startupStorage = stableName then
      { props with startupPath := "", startupStorage := "", startupTrigger := "0" }
    else props
  let props :=
    if props.custStorage = stableName then
      { props with custPath := "", custStorage := "", custTrigger := "0" }
    else props
  ⟨OK, st2, props, calls⟩

/-- `PublicVolume::doFormat`: only `"vfat"` and `"auto"` are accepted; the
block-device wipe result is only logged; `vfat::Format` failure returns
`-errno`; anything else is `-EINVAL` with no device operation. -/
def doFormat (env : Env) (st : VolState) (fsType : String) : Int × List ExtCall :=
  if fsType = "vfat" ∨ fsType = "auto" then
    if env.formatRes ≠ 0 then
      (-env.formatErrno, [ExtCall.wipeBlockDevice st.devPath, ExtCall.vfatFormat st.devPath])
    else
      (OK, [ExtCall.wipeBlockDevice st.devPath, ExtCall.vfatFormat st.devPath])
  else (-EINVAL, [])

/-! ## Derived notions -/

/-- All four mount-session path fields are cleared. -/
def pathsEmpty (st : VolState) : Prop :=
  st.rawPath = "" ∧ st.fuseDefault = "" ∧ st.fuseRead = "" ∧ st.fuseWrite = ""

/-- All four mount-session path fields are populated. -/
def pathsPopulated (st : VolState) : Prop :=
  st.rawPath ≠ "" ∧ st.fuseDefault ≠ "" ∧ st.fuseRead ≠ "" ∧ st.fuseWrite ≠ ""

/-- The mount-session invariant: the path fields are all empty or all
populated. -/
def sessionInv (st : VolState) : Prop := pathsEmpty st ∨ pathsPopulated st

/-- Constructor discriminant of an external call, used to delimit which kinds
of calls each stage of the lifecycle can emit. -/
def tag : ExtCall → Nat
  | .readMetadataUntrusted _ => 0
  | .notifyFsType _ => 1
  | .notifyFsUuid _ => 2
  | .notifyFsLabel _ => 3
  | .vfatCheck _ => 4
  | .ntfsCheck _ => 5
  | .prepareDir _ => 6
  | .vfatMount _ _ => 7
  | .ntfsDoMount _ _ => 8
  | .accessFOK _ => 9
  | .accessRX _ => 10
  | .renameCall _ _ => 11
  | .mkdirCall _ => 12
  | .bindMount _ _ => 13
  | .getDevice _ => 14
  | .forkCall => 15
  | .waitFuseReady _ => 16
  | .killTerm _ => 17
  | .waitPid _ => 18
  | .forceUnmount _ => 19
  | .rmdirCall _ => 20
  | .wipeBlockDevice _ => 21
  | .vfatFormat _ => 22

/-- The OTA hook's trigger file under the (session) raw path:
`updatePath = mRawPath + "/OTA/update.zip"`. -/
def updateTriggerPathOf (st : VolState) : String :=
  (sessionSt st).rawPath ++ "/OTA/update.zip"

/-- The startup hook's trigger file: `startupPath = mRawPath + "/startup/start_up.sh"`. -/
def startupTriggerPathOf (st : VolState) : String :=
  (sessionSt st).rawPath ++ "/startup/start_up.sh"

/-- The cust hook's trigger file: `custPath = mRawPath + "/cust/cust_update.zip"`. -/
def custTriggerPathOf (st : VolState) : String :=
  (sessionSt st).rawPath ++ "/cust/cust_update.zip"

/-! ## Concrete inputs for witnesses -/

/-- A concrete volume: device major 179, minor 1, flags clear. -/
def volA : VolState := mkPublicVolume 179 1

/-- `volA` with the visible flag set. -/
def volAV : VolState := setMountFlags volA true false

/-- An environment in which every external operation succeeds: an empty vfat
medium with no trigger files. -/
def envBase : Env :=
  { metaFsType := "vfat", metaFsUuid := "", metaFsLabel := "",
    vfatCheckRes := 0, ntfsCheckRes := 0,
    prepareDirRes := fun _ => 0, prepareErrno := 13,
    vfatMountRes := 0, ntfsMountRes := 0,
    fileExists := fun _ => false, accessRX := fun _ => false,
    mkdirOk := true, mkdirErrno := 0,
    forkRes := 1234, forkErrno := 11, wipeRes := 0, formatRes := 0, formatErrno := 5 }

/-- The all-idle property store. -/
def propsIdle : Props := ⟨"", "", "", "", "", "", "", "", ""⟩

/-- A store in which the update slot is claimed by `volA`'s stable name and
the startup slot by a different volume. -/
def propsClaimed : Props :=
  ⟨"/p/update.zip", "public:179:1", "1", "/q/start_up.sh", "other-volume", "1", "", "", ""⟩

/-- `envBase` with both filesystem checks failing. -/
def envBothFail : Env := { envBase with vfatCheckRes := 1, ntfsCheckRes := 1 }

/-- `envBase` with an ntfs medium whose vfat check fails, whose ntfs check
succeeds, and whose ntfs native mount fails. -/
def envNtfsMountFail : Env :=
  { envBase with metaFsType := "ntfs", vfatCheckRes := 1, ntfsCheckRes := 0,
                 ntfsMountRes := 1 }

/-- `envBase` with the vfat native mount failing. -/
def envVfatMountFail : Env := { envBase with vfatMountRes := 1 }

/-- `envBase` with `fork` failing. -/
def envForkFail : Env := { envBase with forkRes := -1 }

/-- `envBase` with `volA`'s OTA trigger file present on the medium. -/
def envOTA : Env :=
  { envBase with
    fileExists := fun p => p == "/mnt/media_rw/public:179:1/OTA/update.zip" }

/-- `envBase` with `volA`'s startup trigger file present on the medium. -/
def envStartup : Env :=
  { envBase with
    fileExists := fun p => p == "/mnt/media_rw/public:179:1/startup/start_up.sh" }

/-! ## Helper lemmas -/

lemma append_ne_of_length_ne (r a b : String) (h : a.length ≠ b.length) :
    r ++ a ≠ r ++ b := by
  intro he
  have hl := congrArg String.length he
  rw [String.length_append, String.length_append] at hl
  omega

lemma append_ne_empty (r a : String) (h : r.length ≠ 0) : r ++ a ≠ "" := by
  intro he
  have hl := congrArg String.length he
  rw [String.length_append] at hl
  simp [String.length_empty] at hl
  omega

lemma hookCust_calls (env : Env) (n cup : String) (cT : Bool) (props : Props) :
    (hookCust env n cup cT props).2 = if cT then [] else [ExtCall.accessFOK cup] := by
  unfold hookCust
  split
  · simp_all
  · split <;> simp_all

lemma hookCust_props (env : Env) (n cup : String) (cT : Bool) (props : Props) :
    (hookCust env n cup cT props).1 =
      if cT = false ∧ env.fileExists cup = true then
        { props with custPath := cup, custStorage := n, custTrigger := "1" }
      else props := by
  unfold hookCust
  rcases cT <;> rcases h : env.fileExists cup <;> simp [h]

lemma hookStartup_calls (env : Env) (n stp cup : String) (sT cT : Bool) (props : Props) :
    (hookStartup env n stp cup sT cT props).2 =
      if sT then (hookCust env n cup cT props).2
      else if env.fileExists stp then [ExtCall.accessFOK stp]
      else ExtCall.accessFOK stp :: (hookCust env n cup cT props).2 := by
  unfold hookStartup
  rcases sT <;> rcases h : env.fileExists stp <;> simp [h]

lemma hookStartup_props (env : Env) (n stp cup : String) (sT cT : Bool) (props : Props) :
    (hookStartup env n stp cup sT cT props).1 =
      if sT = false ∧ env.fileExists stp = true then
        { props with startupPath := stp, startupStorage := n, startupTrigger := "1" }
      else (hookCust env n cup cT props).1 := by
  unfold hookStartup
  rcases sT <;> rcases h : env.fileExists stp <;> simp [h]

lemma hookUpdate_calls (env : Env) (n upd stp cup : String) (uT sT cT : Bool) (props : Props) :
    (hookUpdate env n upd stp cup uT sT cT props).2 =
      if uT then (hookStartup env n stp cup sT cT props).2
      else if env.fileExists upd then [ExtCall.accessFOK upd]
      else ExtCall.accessFOK upd :: (hookStartup env n stp cup sT cT props).2 := by
  unfold hookUpdate
  rcases uT <;> rcases h : env.fileExists upd <;> simp [h]

lemma hookUpdate_props (env : Env) (n upd stp cup : String) (uT sT cT : Bool) (props : Props) :
    (hookUpdate env n upd stp cup uT sT cT props).1 =
      if uT = false ∧ env.fileExists upd = true then
        { props with updateStorage := n, updatePath := upd, updateTrigger := "1" }
      else (hookStartup env n stp cup sT cT props).1 := by
  unfold hookUpdate
  rcases uT <;> rcases h : env.fileExists upd <;> simp [h]

lemma hookUpdate_tags (env : Env) (n upd stp cup : String) (uT sT cT : Bool) (props : Props) :
    ∀ c ∈ (hookUpdate env n upd stp cup uT sT cT props).2, tag c = 9 := by
  intro c hc
  rw [hookUpdate_calls, hookStartup_calls, hookCust_calls] at hc
  rcases uT <;> rcases sT <;> rcases cT <;>
    rcases h1 : env.fileExists upd <;> rcases h2 : env.fileExists stp <;>
    rcases h3 : env.fileExists cup <;> simp [h1, h2, h3] at hc <;>
    rcases hc with rfl | rfl | rfl <;> rfl

lemma initAsecStage_tags (env : Env) (st : VolState) :
    ∀ c ∈ (initAsecStage env st).2, 10 ≤ tag c ∧ tag c ≤ 13 := by
  intro c hc
  unfold initAsecStage at hc
  rcases h1 : env.accessRX (st.rawPath ++ "/android_secure") <;>
    rcases h2 : env.accessRX (st.rawPath ++ "/.android_secure") <;>
    simp [h1, h2] at hc <;> split at hc <;> simp at hc <;>
    rcases hc with rfl | rfl | rfl | rfl | rfl <;> simp [tag]

lemma doMountSpawn_tags (env : Env) (st : VolState) (props : Props) :
    ∀ c ∈ (doMountSpawn env st props).calls, 14 ≤ tag c ∧ tag c ≤ 16 := by
  intro c hc
  unfold doMountSpawn at hc
  split at hc
  · simp at hc
  · dsimp only at hc
    split at hc <;> simp at hc <;>
      rcases hc with rfl | rfl | rfl <;> simp [tag]

lemma doMountSpawn_props (env : Env) (st : VolState) (props : Props) :
    (doMountSpawn env st props).props = props := by
  unfold doMountSpawn
  split
  · rfl
  · dsimp only
    split <;> rfl

lemma doMountSpawn_st (env : Env) (st : VolState) (props : Props) :
    (doMountSpawn env st props).st = st ∨
    (doMountSpawn env st props).st = { st with fusePid := env.forkRes } := by
  unfold doMountSpawn
  split
  · exact Or.inl rfl
  · dsimp only
    split <;> exact Or.inr rfl

lemma doMountSpawn_not_visible (env : Env) (st : VolState) (props : Props)
    (h : st.visible = false) : doMountSpawn env st props = ⟨OK, st, props, []⟩ := by
  unfold doMountSpawn
  rw [if_pos h]

lemma doMountAsec_props (env : Env) (st : VolState) (props : Props) :
    (doMountAsec env st props).props = props := by
  unfold doMountAsec
  split <;> simp [doMountSpawn_props]

lemma doMountAsec_st (env : Env) (st : VolState) (props : Props) :
    (doMountAsec env st props).st = (doMountSpawn env st props).st := by
  unfold doMountAsec
  split <;> rfl

lemma doMountAsec_res (env : Env) (st : VolState) (props : Props) :
    (doMountAsec env st props).res = (doMountSpawn env st props).res := by
  unfold doMountAsec
  split <;> rfl

lemma doMountAsec_tags (env : Env) (st : VolState) (props : Props) :
    ∀ c ∈ (doMountAsec env st props).calls, 10 ≤ tag c ∧ tag c ≤ 16 := by
  intro c hc
  unfold doMountAsec at hc
  split at hc
  · simp at hc
    rcases hc with h | h
    · have := initAsecStage_tags env st c h
      omega
    · have := doMountSpawn_tags env st props c h
      omega
  · have := doMountSpawn_tags env st props c hc
    omega

lemma doMountAsec_mem_accessFOK (env : Env) (st : VolState) (props : Props) (q : String) :
    ExtCall.accessFOK q ∉ (doMountAsec env st props).calls := by
  intro hc
  have := doMountAsec_tags env st props _ hc
  simp [tag] at this

lemma doMountHooks_props (env : Env) (st : VolState) (props : Props)
    (n upd stp cup : String) (uT sT cT : Bool) :
    (doMountHooks env st props n upd stp cup uT sT cT).props =
      (hookUpdate env n upd stp cup uT sT cT props).1 := by
  unfold doMountHooks
  simp [doMountAsec_props]

lemma doMountHooks_st (env : Env) (st : VolState) (props : Props)
    (n upd stp cup : String) (uT sT cT : Bool) :
    (doMountHooks env st props n upd stp cup uT sT cT).st = st ∨
    (doMountHooks env st props n upd stp cup uT sT cT).st =
      { st with fusePid := env.forkRes } := by
  unfold doMountHooks
  simp [doMountAsec_st]
  exact doMountSpawn_st env st _

lemma doMountHooks_mem_accessFOK (env : Env) (st : VolState) (props : Props)
    (n upd stp cup : String) (uT sT cT : Bool) (q : String) :
    ExtCall.accessFOK q ∈ (doMountHooks env st props n upd stp cup uT sT cT).calls ↔
      ExtCall.accessFOK q ∈ (hookUpdate env n upd stp cup uT sT cT props).2 := by
  unfold doMountHooks
  simp only [List.mem_append]
  constructor
  · rintro (h | h)
    · exact h
    · exact absurd h (doMountAsec_mem_accessFOK env st _ q)
  · exact Or.inl

lemma doMountHooks_tags (env : Env) (st : VolState) (props : Props)
    (n upd stp cup : String) (uT sT cT : Bool) :
    ∀ c ∈ (doMountHooks env st props n upd stp cup uT sT cT).calls,
      9 ≤ tag c ∧ tag c ≤ 16 := by
  intro c hc
  unfold doMountHooks at hc
  simp at hc
  rcases hc with h | h
  · have := hookUpdate_tags env n upd stp cup uT sT cT props c h
    omega
  · have := doMountAsec_tags env st _ c h
    omega

lemma doMountNative_st (env : Env) (st : VolState) (props : Props) (ntfs : Bool)
    (n upd stp cup : String) (uT sT cT : Bool) :
    (doMountNative env st props ntfs n upd stp cup uT sT cT).st = st ∨
    (doMountNative env st props ntfs n upd stp cup uT sT cT).st =
      { st with fusePid := env.forkRes } := by
  unfold doMountNative
  split
  · exact doMountHooks_st env st props n upd stp cup uT sT cT
  split
  · exact Or.inl rfl
  exact doMountHooks_st env st props n upd stp cup uT sT cT

lemma doMountNative_tags (env : Env) (st : VolState) (props : Props) (ntfs : Bool)
    (n upd stp cup : String) (uT sT cT : Bool) :
    ∀ c ∈ (doMountNative env st props ntfs n upd stp cup uT sT cT).calls,
      7 ≤ tag c ∧ tag c ≤ 16 := by
  intro c hc
  unfold doMountNative at hc
  split at hc
  · dsimp only at hc
    rw [List.mem_cons] at hc
    rcases hc with rfl | h
    · simp [tag]
    · have := doMountHooks_tags env st props n upd stp cup uT sT cT c h
      omega
  split at hc
  · simp at hc
    subst hc
    simp [tag]
  dsimp only at hc
  rw [List.mem_cons] at hc
  rcases hc with rfl | h
  · simp [tag]
  · have := doMountHooks_tags env st props n upd stp cup uT sT cT c h
    omega

lemma sessionSt_rawPath (st : VolState) :
    (sessionSt st).rawPath = "/mnt/media_rw/" ++ stableNameOf st := rfl

lemma sessionSt_fuseDefault (st : VolState) :
    (sessionSt st).fuseDefault = "/mnt/runtime/default/" ++ stableNameOf st := rfl

lemma sessionSt_fuseRead (st : VolState) :
    (sessionSt st).fuseRead = "/mnt/runtime/read/" ++ stableNameOf st := rfl

lemma sessionSt_fuseWrite (st : VolState) :
    (sessionSt st).fuseWrite = "/mnt/runtime/write/" ++ stableNameOf st := rfl

lemma sessionSt_fusePid (st : VolState) : (sessionSt st).fusePid = st.fusePid := rfl

lemma sessionSt_devPath (st : VolState) : (sessionSt st).devPath = st.devPath := rfl

lemma sessionSt_populated (st : VolState) : pathsPopulated (sessionSt st) := by
  refine ⟨?_, ?_, ?_, ?_⟩
  · rw [sessionSt_rawPath]
    exact append_ne_empty _ _ (by decide)
  · rw [sessionSt_fuseDefault]
    exact append_ne_empty _ _ (by decide)
  · rw [sessionSt_fuseRead]
    exact append_ne_empty _ _ (by decide)
  · rw [sessionSt_fuseWrite]
    exact append_ne_empty _ _ (by decide)

lemma doMountPaths_st (env : Env) (st : VolState) (props : Props) (ntfs : Bool) :
    (doMountPaths env st props ntfs).st = sessionSt st ∨
    (doMountPaths env st props ntfs).st = { sessionSt st with fusePid := env.forkRes } := by
  unfold doMountPaths
  dsimp only
  split
  · exact Or.inl rfl
  split
  · exact Or.inl rfl
  split
  · exact Or.inl rfl
  split
  · exact Or.inl rfl
  exact doMountNative_st env (sessionSt st) props ntfs _ _ _ _ _ _ _

lemma doMountPaths_populated (env : Env) (st : VolState) (props : Props) (ntfs : Bool) :
    pathsPopulated (doMountPaths env st props ntfs).st := by
  rcases doMountPaths_st env st props ntfs with h | h <;> rw [h]
  · exact sessionSt_populated st
  · simpa [pathsPopulated] using sessionSt_populated st

lemma doMountPaths_tags (env : Env) (st : VolState) (props : Props) (ntfs : Bool) :
    ∀ c ∈ (doMountPaths env st props ntfs).calls, 6 ≤ tag c ∧ tag c ≤ 16 := by
  intro c hc
  unfold doMountPaths at hc
  dsimp only at hc
  split at hc
  · simp at hc
    subst hc
    simp [tag]
  split at hc
  · simp at hc
    rcases hc with rfl | rfl <;> simp [tag]
  split at hc
  · simp at hc
    rcases hc with rfl | rfl | rfl <;> simp [tag]
  split at hc
  · simp at hc
    rcases hc with rfl | rfl | rfl | rfl <;> simp [tag]
  dsimp only at hc
  rw [List.mem_append] at hc
  rcases hc with h | h
  · simp at h
    rcases h with rfl | rfl | rfl | rfl <;> simp [tag]
  · have := doMountNative_tags env (sessionSt st) props ntfs _ _ _ _ _ _ _ c h
    omega

lemma readMetadata_st (env : Env) (st0 : VolState) :
    (readMetadata env st0).1 =
      { st0 with fsType := env.metaFsType, fsUuid := env.metaFsUuid,
                 fsLabel := env.metaFsLabel } := rfl

lemma readMetadata_tags (env : Env) (st0 : VolState) :
    ∀ c ∈ (readMetadata env st0).2, tag c ≤ 3 := by
  intro c hc
  simp [readMetadata] at hc
  rcases hc with rfl | rfl | rfl | rfl <;> simp [tag]

lemma doMount_eq_unsupported (env : Env) (st0 : VolState) (props : Props)
    (h : env.metaFsType ≠ "vfat" ∧ env.metaFsType ≠ "ntfs") :
    doMount env st0 props = ⟨- EIO, (readMetadata env st0).1, props, (readMetadata env st0).2⟩ := by
  unfold doMount
  dsimp only
  rw [if_pos]
  exact h

lemma doMount_eq_vfatProbe (env : Env) (st0 : VolState) (props : Props)
    (h1 : env.metaFsType = "vfat" ∨ env.metaFsType = "ntfs") (h2 : env.vfatCheckRes = 0) :
    doMount env st0 props =
      ⟨(doMountPaths env (readMetadata env st0).1 props false).res,
       (doMountPaths env (readMetadata env st0).1 props false).st,
       (doMountPaths env (readMetadata env st0).1 props false).props,
       (readMetadata env st0).2 ++ [ExtCall.vfatCheck (readMetadata env st0).1.devPath] ++
         (doMountPaths env (readMetadata env st0).1 props false).calls⟩ := by
  unfold doMount
  dsimp only
  rw [if_neg, if_neg]
  · simp [h2]
  · show ¬((readMetadata env st0).1.fsType ≠ "vfat" ∧ (readMetadata env st0).1.fsType ≠ "ntfs")
    rw [readMetadata_st]
    rcases h1 with h | h <;> simp [h]

lemma doMount_eq_ntfsProbe (env : Env) (st0 : VolState) (props : Props)
    (h1 : env.metaFsType = "vfat" ∨ env.metaFsType = "ntfs")
    (h2 : env.vfatCheckRes ≠ 0) (h3 : env.ntfsCheckRes = 0) :
    doMount env st0 props =
      ⟨(doMountPaths env (readMetadata env st0).1 props true).res,
       (doMountPaths env (readMetadata env st0).1 props true).st,
       (doMountPaths env (readMetadata env st0).1 props true).props,
       (readMetadata env st0).2 ++
         [ExtCall.vfatCheck (readMetadata env st0).1.devPath,
          ExtCall.ntfsCheck (readMetadata env st0).1.devPath] ++
         (doMountPaths env (readMetadata env st0).1 props true).calls⟩ := by
  unfold doMount
  dsimp only
  rw [if_neg, if_pos h2, if_pos h3]
  show ¬((readMetadata env st0).1.fsType ≠ "vfat" ∧ (readMetadata env st0).1.fsType ≠ "ntfs")
  rw [readMetadata_st]
  rcases h1 with h | h <;> simp [h]

lemma doMount_eq_bothFail (env : Env) (st0 : VolState) (props : Props)
    (h1 : env.metaFsType = "vfat" ∨ env.metaFsType = "ntfs")
    (h2 : env.vfatCheckRes ≠ 0) (h3 : env.ntfsCheckRes ≠ 0) :
    doMount env st0 props =
      ⟨- EIO, (readMetadata env st0).1, props,
       (readMetadata env st0).2 ++
         [ExtCall.vfatCheck (readMetadata env st0).1.devPath,
          ExtCall.ntfsCheck (readMetadata env st0).1.devPath]⟩ := by
  unfold doMount
  dsimp only
  rw [if_neg, if_pos h2, if_neg h3]
  show ¬((readMetadata env st0).1.fsType ≠ "vfat" ∧ (readMetadata env st0).1.fsType ≠ "ntfs")
  rw [readMetadata_st]
  rcases h1 with h | h <;> simp [h]

lemma doMount_cases (env : Env) (st0 : VolState) (props : Props) :
    ((doMount env st0 props).res = - EIO ∧
     (doMount env st0 props).st = (readMetadata env st0).1) ∨
    (∃ ntfs, (doMount env st0 props).st =
               (doMountPaths env (readMetadata env st0).1 props ntfs).st ∧
             (doMount env st0 props).res =
               (doMountPaths env (readMetadata env st0).1 props ntfs).res) := by
  unfold doMount
  dsimp only
  split
  · exact Or.inl ⟨rfl, rfl⟩
  split
  · split
    · exact Or.inr ⟨true, rfl, rfl⟩
    · exact Or.inl ⟨rfl, rfl⟩
  · exact Or.inr ⟨false, rfl, rfl⟩

lemma doUnmount_res (env : Env) (st : VolState) (props : Props) :
    (doUnmount env st props).res = OK := rfl

lemma doUnmount_calls (env : Env) (st : VolState) (props : Props) :
    (doUnmount env st props).calls =
      (if st.fusePid > 0 then [ExtCall.killTerm st.fusePid, ExtCall.waitPid st.fusePid]
       else []) ++
      [ExtCall.forceUnmount kAsecPath,
       ExtCall.forceUnmount st.fuseDefault, ExtCall.forceUnmount st.fuseRead,
       ExtCall.forceUnmount st.fuseWrite, ExtCall.forceUnmount st.rawPath,
       ExtCall.rmdirCall st.fuseDefault, ExtCall.rmdirCall st.fuseRead,
       ExtCall.rmdirCall st.fuseWrite, ExtCall.rmdirCall st.rawPath] := by
  unfold doUnmount
  by_cases hp : st.fusePid > 0 <;> simp [hp]

lemma doUnmount_st (env : Env) (st : VolState) (props : Props) :
    (doUnmount env st props).st =
      { st with fusePid := if st.fusePid > 0 then 0 else st.fusePid,
                fuseDefault := "", fuseRead := "", fuseWrite := "", rawPath := "" } := by
  unfold doUnmount
  by_cases hp : st.fusePid > 0 <;> simp [hp]

lemma doUnmount_props (env : Env) (st : VolState) (props : Props) :
    (doUnmount env st props).props =
      (fun p2 =>
        if p2.custStorage = stableNameOf st then
          { p2 with custPath := "", custStorage := "", custTrigger := "0" }
        else p2)
      ((fun p1 =>
        if p1.startupStorage = stableNameOf st then
          { p1 with startupPath := "", startupStorage := "", startupTrigger := "0" }
        else p1)
       (if props.updateStorage = stableNameOf st then
          { props with updatePath := "", updateStorage := "", updateTrigger := "0" }
        else props)) := by
  unfold doUnmount stableNameOf
  by_cases hp : st.fusePid > 0 <;> simp [hp]

lemma doMountAsec_not_visible (env : Env) (st : VolState) (props : Props)
    (h : st.visible = false) :
    (doMountAsec env st props).res = OK ∧ (doMountAsec env st props).st = st ∧
    (doMountAsec env st props).props = props ∧
    ∀ c ∈ (doMountAsec env st props).calls, 10 ≤ tag c ∧ tag c ≤ 13 := by
  unfold doMountAsec
  rw [doMountSpawn_not_visible env st props h]
  split
  · refine ⟨rfl, rfl, rfl, ?_⟩
    intro c hc
    simp at hc
    exact initAsecStage_tags env st c hc
  · refine ⟨rfl, rfl, rfl, ?_⟩
    intro c hc
    simp at hc

lemma doMountHooks_not_visible (env : Env) (st : VolState) (props : Props)
    (n upd stp cup : String) (uT sT cT : Bool) (h : st.visible = false) :
    (doMountHooks env st props n upd stp cup uT sT cT).res = OK ∧
    (doMountHooks env st props n upd stp cup uT sT cT).st = st ∧
    ∀ c ∈ (doMountHooks env st props n upd stp cup uT sT cT).calls,
      9 ≤ tag c ∧ tag c ≤ 13 := by
  unfold doMountHooks
  dsimp only
  have ha := doMountAsec_not_visible env st
    (hookUpdate env n upd stp cup uT sT cT props).1 h
  refine ⟨ha.1, ha.2.1, ?_⟩
  intro c hc
  rw [List.mem_append] at hc
  rcases hc with hc | hc
  · have := hookUpdate_tags env n upd stp cup uT sT cT props c hc
    omega
  · have := ha.2.2.2 c hc
    omega

lemma doMountNative_not_visible (env : Env) (st : VolState) (props : Props) (ntfs : Bool)
    (n upd stp cup : String) (uT sT cT : Bool) (h : st.visible = false) :
    (doMountNative env st props ntfs n upd stp cup uT sT cT).st = st ∧
    ∀ c ∈ (doMountNative env st props ntfs n upd stp cup uT sT cT).calls,
      7 ≤ tag c ∧ tag c ≤ 13 := by
  have hh := doMountHooks_not_visible env st props n upd stp cup uT sT cT h
  unfold doMountNative
  split
  · refine ⟨hh.2.1, ?_⟩
    intro c hc
    dsimp only at hc
    rw [List.mem_cons] at hc
    rcases hc with rfl | hc
    · simp [tag]
    · have := hh.2.2 c hc
      omega
  split
  · refine ⟨rfl, ?_⟩
    intro c hc
    simp at hc
    subst hc
    simp [tag]
  · refine ⟨hh.2.1, ?_⟩
    intro c hc
    dsimp only at hc
    rw [List.mem_cons] at hc
    rcases hc with rfl | hc
    · simp [tag]
    · have := hh.2.2 c hc
      omega

lemma doMountPaths_not_visible (env : Env) (st : VolState) (props : Props) (ntfs : Bool)
    (h : st.visible = false) :
    (doMountPaths env st props ntfs).st = sessionSt st ∧
    ∀ c ∈ (doMountPaths env st props ntfs).calls, 6 ≤ tag c ∧ tag c ≤ 13 := by
  have hsv : (sessionSt st).visible = false := h
  have hn := doMountNative_not_visible env (sessionSt st) props ntfs (stableNameOf st)
    ((sessionSt st).rawPath ++ "/OTA/update.zip")
    ((sessionSt st).rawPath ++ "/startup/start_up.sh")
    ((sessionSt st).rawPath ++ "/cust/cust_update.zip")
    (parseBool props.updateTrigger false) (parseBool props.startupTrigger false)
    (parseBool props.custTrigger false) hsv
  unfold doMountPaths
  dsimp only
  split
  · exact ⟨rfl, by intro c hc; simp at hc; subst hc; simp [tag]⟩
  split
  · exact ⟨rfl, by intro c hc; simp at hc; rcases hc with rfl | rfl <;> simp [tag]⟩
  split
  · exact ⟨rfl, by intro c hc; simp at hc; rcases hc with rfl | rfl | rfl <;> simp [tag]⟩
  split
  · exact ⟨rfl, by intro c hc; simp at hc; rcases hc with rfl | rfl | rfl | rfl <;> simp [tag]⟩
  refine ⟨hn.1, ?_⟩
  intro c hc
  dsimp only at hc
  rw [List.mem_append] at hc
  rcases hc with hc | hc
  · simp at hc
    rcases hc with rfl | rfl | rfl | rfl <;> simp [tag]
  · have := hn.2 c hc
    omega

lemma doMount_tags_not_visible (env : Env) (st : VolState) (props : Props)
    (h : st.visible = false) :
    ∀ c ∈ (doMount env st props).calls, tag c ≤ 13 := by
  have hrv : (readMetadata env st).1.visible = false := h
  intro c hc
  unfold doMount at hc
  dsimp only at hc
  split at hc
  · have := readMetadata_tags env st c hc
    omega
  split at hc
  · split at hc
    · dsimp only at hc
      rw [List.mem_append, List.mem_append] at hc
      rcases hc with (hc | hc) | hc
      · have := readMetadata_tags env st c hc
        omega
      · simp at hc
        rcases hc with rfl | rfl <;> simp [tag]
      · have := (doMountPaths_not_visible env _ props true hrv).2 c hc
        omega
    · rw [List.mem_append] at hc
      rcases hc with hc | hc
      · have := readMetadata_tags env st c hc
        omega
      · simp at hc
        rcases hc with rfl | rfl <;> simp [tag]
  · dsimp only at hc
    rw [List.mem_append, List.mem_append] at hc
    rcases hc with (hc | hc) | hc
    · have := readMetadata_tags env st c hc
      omega
    · simp at hc
      subst hc
      simp [tag]
    · have := (doMountPaths_not_visible env _ props false hrv).2 c hc
      omega

lemma doMount_st_not_visible (env : Env) (st : VolState) (props : Props)
    (h : st.visible = false) :
    (doMount env st props).st = (readMetadata env st).1 ∨
    (doMount env st props).st = sessionSt (readMetadata env st).1 := by
  have hrv : (readMetadata env st).1.visible = false := h
  rcases doMount_cases env st props with ⟨_, hst⟩ | ⟨ntfs, hst, _⟩
  · exact Or.inl hst
  · rw [hst, (doMountPaths_not_visible env _ props ntfs hrv).1]
    exact Or.inr rfl

lemma doMountNative_eq_ntfs (env : Env) (st : VolState) (props : Props)
    (n upd stp cup : String) (uT sT cT : Bool) :
    doMountNative env st props true n upd stp cup uT sT cT =
      ⟨(doMountHooks env st props n upd stp cup uT sT cT).res,
       (doMountHooks env st props n upd stp cup uT sT cT).st,
       (doMountHooks env st props n upd stp cup uT sT cT).props,
       ExtCall.ntfsDoMount st.devPath st.rawPath ::
         (doMountHooks env st props n upd stp cup uT sT cT).calls⟩ := rfl

lemma doMountNative_eq_vfat_ok (env : Env) (st : VolState) (props : Props)
    (n upd stp cup : String) (uT sT cT : Bool) (h : env.vfatMountRes = 0) :
    doMountNative env st props false n upd stp cup uT sT cT =
      ⟨(doMountHooks env st props n upd stp cup uT sT cT).res,
       (doMountHooks env st props n upd stp cup uT sT cT).st,
       (doMountHooks env st props n upd stp cup uT sT cT).props,
       ExtCall.vfatMount st.devPath st.rawPath ::
         (doMountHooks env st props n upd stp cup uT sT cT).calls⟩ := by
  unfold doMountNative
  simp [h]

lemma doMountNative_eq_vfat_fail (env : Env) (st : VolState) (props : Props)
    (n upd stp cup : String) (uT sT cT : Bool) (h : env.vfatMountRes ≠ 0) :
    doMountNative env st props false n upd stp cup uT sT cT =
      ⟨- EIO, st, props, [ExtCall.vfatMount st.devPath st.rawPath]⟩ := by
  unfold doMountNative
  simp [h]

lemma doMountPaths_eq_prepOk (env : Env) (st : VolState) (props : Props) (ntfs : Bool)
    (hprep : ∀ p, env.prepareDirRes p = 0) :
    doMountPaths env st props ntfs =
      ⟨(doMountNative env (sessionSt st) props ntfs (stableNameOf st)
          (updateTriggerPathOf st) (startupTriggerPathOf st) (custTriggerPathOf st)
          (parseBool props.updateTrigger false) (parseBool props.startupTrigger false)
          (parseBool props.custTrigger false)).res,
       (doMountNative env (sessionSt st) props ntfs (stableNameOf st)
          (updateTriggerPathOf st) (startupTriggerPathOf st) (custTriggerPathOf st)
          (parseBool props.updateTrigger false) (parseBool props.startupTrigger false)
          (parseBool props.custTrigger false)).st,
       (doMountNative env (sessionSt st) props ntfs (stableNameOf st)
          (updateTriggerPathOf st) (startupTriggerPathOf st) (custTriggerPathOf st)
          (parseBool props.updateTrigger false) (parseBool props.startupTrigger false)
          (parseBool props.custTrigger false)).props,
       [ExtCall.prepareDir (sessionSt st).rawPath,
        ExtCall.prepareDir (sessionSt st).fuseDefault,
        ExtCall.prepareDir (sessionSt st).fuseRead,
        ExtCall.prepareDir (sessionSt st).fuseWrite] ++
         (doMountNative env (sessionSt st) props ntfs (stableNameOf st)
            (updateTriggerPathOf st) (startupTriggerPathOf st) (custTriggerPathOf st)
            (parseBool props.updateTrigger false) (parseBool props.startupTrigger false)
            (parseBool props.custTrigger false)).calls⟩ := by
  unfold doMountPaths updateTriggerPathOf startupTriggerPathOf custTriggerPathOf
  dsimp only
  rw [if_neg (by simp [hprep]), if_neg (by simp [hprep]), if_neg (by simp [hprep]),
      if_neg (by simp [hprep])]

lemma readMetadata_devPath (env : Env) (st0 : VolState) :
    (readMetadata env st0).1.devPath = st0.devPath := rfl

lemma doMountSpawn_fusePid_cases (env : Env) (st : VolState) (props : Props) :
    ((doMountSpawn env st props).st.fusePid = st.fusePid ∧
     ExtCall.forkCall ∉ (doMountSpawn env st props).calls) ∨
    ((doMountSpawn env st props).st.fusePid = env.forkRes ∧
     ExtCall.forkCall ∈ (doMountSpawn env st props).calls) := by
  unfold doMountSpawn
  split
  · exact Or.inl ⟨rfl, by simp⟩
  · dsimp only
    split <;> exact Or.inr ⟨rfl, by simp⟩

lemma doMountAsec_fusePid_cases (env : Env) (st : VolState) (props : Props) :
    ((doMountAsec env st props).st.fusePid = st.fusePid ∧
     ExtCall.forkCall ∉ (doMountAsec env st props).calls) ∨
    ((doMountAsec env st props).st.fusePid = env.forkRes ∧
     ExtCall.forkCall ∈ (doMountAsec env st props).calls) := by
  have h := doMountSpawn_fusePid_cases env st props
  unfold doMountAsec
  split
  · dsimp only
    rcases h with ⟨h1, h2⟩ | ⟨h1, h2⟩
    · refine Or.inl ⟨h1, ?_⟩
      rw [List.mem_append]
      rintro (hc | hc)
      · have := initAsecStage_tags env st _ hc
        simp [tag] at this
      · exact h2 hc
    · exact Or.inr ⟨h1, by rw [List.mem_append]; exact Or.inr h2⟩
  · exact h

lemma doMountHooks_fusePid_cases (env : Env) (st : VolState) (props : Props)
    (n upd stp cup : String) (uT sT cT : Bool) :
    ((doMountHooks env st props n upd stp cup uT sT cT).st.fusePid = st.fusePid ∧
     ExtCall.forkCall ∉ (doMountHooks env st props n upd stp cup uT sT cT).calls) ∨
    ((doMountHooks env st props n upd stp cup uT sT cT).st.fusePid = env.forkRes ∧
     ExtCall.forkCall ∈ (doMountHooks env st props n upd stp cup uT sT cT).calls) := by
  unfold doMountHooks
  dsimp only
  rcases doMountAsec_fusePid_cases env st (hookUpdate env n upd stp cup uT sT cT props).1
    with ⟨h1, h2⟩ | ⟨h1, h2⟩
  · refine Or.inl ⟨h1, ?_⟩
    rw [List.mem_append]
    rintro (hc | hc)
    · have := hookUpdate_tags env n upd stp cup uT sT cT props _ hc
      simp [tag] at this
    · exact h2 hc
  · exact Or.inr ⟨h1, by rw [List.mem_append]; exact Or.inr h2⟩

lemma doMountNative_fusePid_cases (env : Env) (st : VolState) (props : Props) (ntfs : Bool)
    (n upd stp cup : String) (uT sT cT : Bool) :
    ((doMountNative env st props ntfs n upd stp cup uT sT cT).st.fusePid = st.fusePid ∧
     ExtCall.forkCall ∉ (doMountNative env st props ntfs n upd stp cup uT sT cT).calls) ∨
    ((doMountNative env st props ntfs n upd stp cup uT sT cT).st.fusePid = env.forkRes ∧
     ExtCall.forkCall ∈ (doMountNative env st props ntfs n upd stp cup uT sT cT).calls) := by
  have h := doMountHooks_fusePid_cases env st props n upd stp cup uT sT cT
  unfold doMountNative
  split
  · dsimp only
    rcases h with ⟨h1, h2⟩ | ⟨h1, h2⟩
    · refine Or.inl ⟨h1, ?_⟩
      rw [List.mem_cons]
      rintro (hc | hc)
      · exact absurd hc (by simp)
      · exact h2 hc
    · exact Or.inr ⟨h1, by rw [List.mem_cons]; exact Or.inr h2⟩
  split
  · exact Or.inl ⟨rfl, by simp⟩
  · dsimp only
    rcases h with ⟨h1, h2⟩ | ⟨h1, h2⟩
    · refine Or.inl ⟨h1, ?_⟩
      rw [List.mem_cons]
      rintro (hc | hc)
      · exact absurd hc (by simp)
      · exact h2 hc
    · exact Or.inr ⟨h1, by rw [List.mem_cons]; exact Or.inr h2⟩

lemma doMountPaths_fusePid_cases (env : Env) (st : VolState) (props : Props) (ntfs : Bool) :
    ((doMountPaths env st props ntfs).st.fusePid = st.fusePid ∧
     ExtCall.forkCall ∉ (doMountPaths env st props ntfs).calls) ∨
    ((doMountPaths env st props ntfs).st.fusePid = env.forkRes ∧
     ExtCall.forkCall ∈ (doMountPaths env st props ntfs).calls) := by
  unfold doMountPaths
  dsimp only
  split
  · exact Or.inl ⟨sessionSt_fusePid st, by simp⟩
  split
  · exact Or.inl ⟨sessionSt_fusePid st, by simp⟩
  split
  · exact Or.inl ⟨sessionSt_fusePid st, by simp⟩
  split
  · exact Or.inl ⟨sessionSt_fusePid st, by simp⟩
  dsimp only
  rcases doMountNative_fusePid_cases env (sessionSt st) props ntfs (stableNameOf st)
      ((sessionSt st).rawPath ++ "/OTA/update.zip")
      ((sessionSt st).rawPath ++ "/startup/start_up.sh")
      ((sessionSt st).rawPath ++ "/cust/cust_update.zip")
      (parseBool props.updateTrigger false) (parseBool props.startupTrigger false)
      (parseBool props.custTrigger false) with ⟨h1, h2⟩ | ⟨h1, h2⟩
  · refine Or.inl ⟨by rw [h1, sessionSt_fusePid], ?_⟩
    rw [List.mem_append]
    rintro (hc | hc)
    · simp at hc
    · exact h2 hc
  · exact Or.inr ⟨h1, by rw [List.mem_append]; exact Or.inr h2⟩

lemma doMount_fusePid_cases (env : Env) (st0 : VolState) (props : Props) :
    ((doMount env st0 props).st.fusePid = st0.fusePid ∧
     ExtCall.forkCall ∉ (doMount env st0 props).calls) ∨
    ((doMount env st0 props).st.fusePid = env.forkRes ∧
     ExtCall.forkCall ∈ (doMount env st0 props).calls) := by
  unfold doMount
  dsimp only
  split
  · refine Or.inl ⟨rfl, ?_⟩
    intro hc
    have := readMetadata_tags env st0 _ hc
    simp [tag] at this
  split
  · split
    · dsimp only
      rcases doMountPaths_fusePid_cases env (readMetadata env st0).1 props true
        with ⟨h1, h2⟩ | ⟨h1, h2⟩
      · refine Or.inl ⟨h1, ?_⟩
        rw [List.mem_append, List.mem_append]
        rintro ((hc | hc) | hc)
        · have := readMetadata_tags env st0 _ hc
          simp [tag] at this
        · simp at hc
        · exact h2 hc
      · exact Or.inr ⟨h1, by rw [List.mem_append]; exact Or.inr h2⟩
    · refine Or.inl ⟨rfl, ?_⟩
      rw [List.mem_append]
      rintro (hc | hc)
      · have := readMetadata_tags env st0 _ hc
        simp [tag] at this
      · simp at hc
  · dsimp only
    rcases doMountPaths_fusePid_cases env (readMetadata env st0).1 props false
      with ⟨h1, h2⟩ | ⟨h1, h2⟩
    · refine Or.inl ⟨h1, ?_⟩
      rw [List.mem_append, List.mem_append]
      rintro ((hc | hc) | hc)
      · have := readMetadata_tags env st0 _ hc
        simp [tag] at this
      · simp at hc
      · exact h2 hc
    · exact Or.inr ⟨h1, by rw [List.mem_append]; exact Or.inr h2⟩

lemma doMountSpawn_fork_fail (env : Env) (st : VolState) (props : Props)
    (hf : env.forkRes = -1)
    (hc : ExtCall.forkCall ∈ (doMountSpawn env st props).calls) :
    (doMountSpawn env st props).res = -env.forkErrno ∧
    (doMountSpawn env st props).st.fusePid = -1 := by
  unfold doMountSpawn at hc ⊢
  split at hc
  · simp at hc
  · rename_i hv
    rw [if_neg hv]
    dsimp only at hc ⊢
    rw [if_pos (show env.forkRes = -1 from hf)] at hc ⊢
    exact ⟨rfl, hf⟩

lemma doMountHooks_res (env : Env) (st : VolState) (props : Props)
    (n upd stp cup : String) (uT sT cT : Bool) :
    (doMountHooks env st props n upd stp cup uT sT cT).res =
      (doMountSpawn env st (hookUpdate env n upd stp cup uT sT cT props).1).res := by
  unfold doMountHooks
  dsimp only
  rw [doMountAsec_res]

lemma doMountHooks_fork_fail (env : Env) (st : VolState) (props : Props)
    (n upd stp cup : String) (uT sT cT : Bool) (hf : env.forkRes = -1)
    (hc : ExtCall.forkCall ∈ (doMountHooks env st props n upd stp cup uT sT cT).calls) :
    (doMountHooks env st props n upd stp cup uT sT cT).res = -env.forkErrno ∧
    (doMountHooks env st props n upd stp cup uT sT cT).st.fusePid = -1 := by
  have hmem : ExtCall.forkCall ∈
      (doMountSpawn env st (hookUpdate env n upd stp cup uT sT cT props).1).calls := by
    unfold doMountHooks at hc
    dsimp only at hc
    rw [List.mem_append] at hc
    rcases hc with hc | hc
    · have := hookUpdate_tags env n upd stp cup uT sT cT props _ hc
      simp [tag] at this
    · unfold doMountAsec at hc
      split at hc
      · dsimp only at hc
        rw [List.mem_append] at hc
        rcases hc with hc | hc
        · have := initAsecStage_tags env st _ hc
          simp [tag] at this
        · exact hc
      · exact hc
  have hs := doMountSpawn_fork_fail env st
    (hookUpdate env n upd stp cup uT sT cT props).1 hf hmem
  constructor
  · rw [doMountHooks_res]
    exact hs.1
  · unfold doMountHooks
    dsimp only
    rw [doMountAsec_st]
    exact hs.2

lemma doMountNative_fork_fail (env : Env) (st : VolState) (props : Props) (ntfs : Bool)
    (n upd stp cup : String) (uT sT cT : Bool) (hf : env.forkRes = -1)
    (hc : ExtCall.forkCall ∈
      (doMountNative env st props ntfs n upd stp cup uT sT cT).calls) :
    (doMountNative env st props ntfs n upd stp cup uT sT cT).res = -env.forkErrno ∧
    (doMountNative env st props ntfs n upd stp cup uT sT cT).st.fusePid = -1 := by
  unfold doMountNative at hc ⊢
  split at hc
  · rename_i hnt
    rw [if_pos hnt]
    dsimp only at hc ⊢
    rw [List.mem_cons] at hc
    rcases hc with hc | hc
    · exact absurd hc (by simp)
    · exact doMountHooks_fork_fail env st props n upd stp cup uT sT cT hf hc
  split at hc
  · simp at hc
  · rename_i hnt hm
    rw [if_neg hnt, if_neg hm]
    dsimp only at hc ⊢
    rw [List.mem_cons] at hc
    rcases hc with hc | hc
    · exact absurd hc (by simp)
    · exact doMountHooks_fork_fail env st props n upd stp cup uT sT cT hf hc

lemma doMountPaths_fork_fail (env : Env) (st : VolState) (props : Props) (ntfs : Bool)
    (hf : env.forkRes = -1)
    (hc : ExtCall.forkCall ∈ (doMountPaths env st props ntfs).calls) :
    (doMountPaths env st props ntfs).res = -env.forkErrno ∧
    (doMountPaths env st props ntfs).st.fusePid = -1 := by
  unfold doMountPaths at hc ⊢
  dsimp only at hc ⊢
  split at hc
  · rename_i h
    rw [if_pos h]
    simp at hc
  split at hc
  · rename_i h h2
    rw [if_neg h, if_pos h2]
    simp at hc
  split at hc
  · rename_i h h2 h3
    rw [if_neg h, if_neg h2, if_pos h3]
    simp at hc
  split at hc
  · rename_i h h2 h3 h4
    rw [if_neg h, if_neg h2, if_neg h3, if_pos h4]
    simp at hc
  rename_i h h2 h3 h4
  rw [if_neg h, if_neg h2, if_neg h3, if_neg h4]
  dsimp only at hc ⊢
  rw [List.mem_append] at hc
  rcases hc with hc | hc
  · simp at hc
  · exact doMountNative_fork_fail env (sessionSt st) props ntfs _ _ _ _ _ _ _ hf hc

lemma doMount_fork_fail (env : Env) (st0 : VolState) (props : Props)
    (hf : env.forkRes = -1)
    (hc : ExtCall.forkCall ∈ (doMount env st0 props).calls) :
    (doMount env st0 props).res = -env.forkErrno ∧
    (doMount env st0 props).st.fusePid = -1 := by
  unfold doMount at hc ⊢
  dsimp only at hc ⊢
  split at hc
  · rename_i h
    rw [if_pos h]
    exfalso
    have := readMetadata_tags env st0 _ hc
    simp [tag] at this
  split at hc
  · split at hc
    · rename_i h h2 h3
      rw [if_neg h, if_pos h2, if_pos h3]
      dsimp only at hc ⊢
      rw [List.mem_append, List.mem_append] at hc
      rcases hc with (hc | hc) | hc
      · exfalso
        have := readMetadata_tags env st0 _ hc
        simp [tag] at this
      · simp at hc
      · exact doMountPaths_fork_fail env _ props true hf hc
    · rename_i h h2 h3
      rw [if_neg h, if_pos h2, if_neg h3]
      exfalso
      rw [List.mem_append] at hc
      rcases hc with hc | hc
      · have := readMetadata_tags env st0 _ hc
        simp [tag] at this
      · simp at hc
  · rename_i h h2
    rw [if_neg h, if_neg h2]
    dsimp only at hc ⊢
    rw [List.mem_append, List.mem_append] at hc
    rcases hc with (hc | hc) | hc
    · exfalso
      have := readMetadata_tags env st0 _ hc
      simp [tag] at this
    · simp at hc
    · exact doMountPaths_fork_fail env _ props false hf hc

/-! ## Claims -/

/-- **C7**: `doFormat` accepts exactly the two input strings `"vfat"` and
`"auto"`: those two lead to the block-device wipe followed by the format call
being issued; every other requested fsType string returns `-EINVAL` with an
empty external-call trace, so neither the wipe nor the format operation is
performed and the device is untouched. -/
theorem C7_format_accepts_exactly_vfat_auto (env : Env) (st : VolState) (fsType : String) :
    ((fsType = "vfat" ∨ fsType = "auto") →
      (doFormat env st fsType).2 =
        [ExtCall.wipeBlockDevice st.devPath, ExtCall.vfatFormat st.devPath]) ∧
    (fsType ≠ "vfat" → fsType ≠ "auto" →
      (doFormat env st fsType).1 = -EINVAL ∧ (doFormat env st fsType).2 = []) := by
  constructor
  · intro h
    unfold doFormat
    rw [if_pos h]
    split <;> rfl
  · intro h1 h2
    unfold doFormat
    rw [if_neg (by simp [h1, h2])]
    exact ⟨rfl, rfl⟩

/-- Witness for C7: `"ntfs"` is rejected with `-EINVAL` and no device
operation; `"vfat"` leads to the wipe and format calls. -/
theorem C7_format_accepts_exactly_vfat_auto_witness :
    (doFormat envBase volA "ntfs").1 = -EINVAL ∧ (doFormat envBase volA "ntfs").2 = [] ∧
    (doFormat envBase volA "vfat").2 =
      [ExtCall.wipeBlockDevice volA.devPath, ExtCall.vfatFormat volA.devPath] := by
  refine ⟨?_, ?_, ?_⟩
  · exact ((C7_format_accepts_exactly_vfat_auto envBase volA "ntfs").2
      (by decide) (by decide)).1
  · exact ((C7_format_accepts_exactly_vfat_auto envBase volA "ntfs").2
      (by decide) (by decide)).2
  · exact (C7_format_accepts_exactly_vfat_auto envBase volA "vfat").1 (Or.inl rfl)

/-- **C5**: `doUnmount` is best-effort and idempotent: from every starting
state it returns success; the force-unmount of the asec path, of the three
bridged views and of the raw path, and the four directory removals all appear
in the call trace (the source only logs their failures, so no external result
can suppress a later step); and a second `doUnmount` right after the first
also returns success. -/
theorem C5_unmount_best_effort_idempotent (env env2 : Env) (st : VolState) (props : Props) :
    (doUnmount env st props).res = OK ∧
    ExtCall.forceUnmount kAsecPath ∈ (doUnmount env st props).calls ∧
    ExtCall.forceUnmount st.fuseDefault ∈ (doUnmount env st props).calls ∧
    ExtCall.forceUnmount st.fuseRead ∈ (doUnmount env st props).calls ∧
    ExtCall.forceUnmount st.fuseWrite ∈ (doUnmount env st props).calls ∧
    ExtCall.forceUnmount st.rawPath ∈ (doUnmount env st props).calls ∧
    ExtCall.rmdirCall st.fuseDefault ∈ (doUnmount env st props).calls ∧
    ExtCall.rmdirCall st.fuseRead ∈ (doUnmount env st props).calls ∧
    ExtCall.rmdirCall st.fuseWrite ∈ (doUnmount env st props).calls ∧
    ExtCall.rmdirCall st.rawPath ∈ (doUnmount env st props).calls ∧
    (doUnmount env2 (doUnmount env st props).st (doUnmount env st props).props).res = OK := by
  refine ⟨doUnmount_res env st props, ?_, ?_, ?_, ?_, ?_, ?_, ?_, ?_, ?_,
    doUnmount_res env2 _ _⟩ <;>
    rw [doUnmount_calls] <;> simp

/-- **C6**: the mount-session path fields are all empty or all populated after
every completed `doMount` or `doUnmount` call, given the invariant held
before: a `doMount` that returns success leaves all four populated, a
`doMount` that fails early leaves the fields as they were, and `doUnmount`
always clears all four. -/
theorem C6_session_paths_all_or_nothing (env : Env) (st : VolState) (props : Props)
    (h : sessionInv st) :
    sessionInv (doMount env st props).st ∧
    ((doMount env st props).res = OK → pathsPopulated (doMount env st props).st) ∧
    pathsEmpty (doUnmount env st props).st := by
  refine ⟨?_, ?_, ?_⟩
  · rcases doMount_cases env st props with ⟨_, hst⟩ | ⟨ntfs, hst, _⟩ <;> rw [hst]
    · simpa [sessionInv, pathsEmpty, pathsPopulated, readMetadata] using h
    · exact Or.inr (doMountPaths_populated env _ props ntfs)
  · intro hres
    rcases doMount_cases env st props with ⟨hr, _⟩ | ⟨ntfs, hst, _⟩
    · rw [hres] at hr
      exact absurd hr (by decide)
    · rw [hst]
      exact doMountPaths_populated env _ props ntfs
  · rw [doUnmount_st]
    exact ⟨rfl, rfl, rfl, rfl⟩

/-- Witness for C6: starting from the all-empty `volA`, a successful mount
populates all four session paths and the following unmount clears them. -/
theorem C6_session_paths_all_or_nothing_witness :
    sessionInv (doMount envBase volA propsIdle).st ∧
    pathsPopulated (doMount envBase volA propsIdle).st ∧
    pathsEmpty (doUnmount envBase volA propsIdle).st := by
  have h := C6_session_paths_all_or_nothing envBase volA propsIdle
    (Or.inl ⟨rfl, rfl, rfl, rfl⟩)
  exact ⟨h.1, h.2.1 (by decide), h.2.2⟩

/-- **C4**: for each of the three hook slots, `doUnmount` resets the slot's
path, storage name and trigger flag back to idle exactly when the slot's
stored storage name equals the unmounting volume's recomputed stable name; a
slot whose stored storage name differs keeps all three of its fields
unchanged. -/
theorem C4_unmount_slot_clear_iff_name_matches (env : Env) (st : VolState) (props : Props) :
    ((props.updateStorage = stableNameOf st →
        (doUnmount env st props).props.updatePath = "" ∧
        (doUnmount env st props).props.updateStorage = "" ∧
        (doUnmount env st props).props.updateTrigger = "0") ∧
     (props.updateStorage ≠ stableNameOf st →
        (doUnmount env st props).props.updatePath = props.updatePath ∧
        (doUnmount env st props).props.updateStorage = props.updateStorage ∧
        (doUnmount env st props).props.updateTrigger = props.updateTrigger)) ∧
    ((props.startupStorage = stableNameOf st →
        (doUnmount env st props).props.startupPath = "" ∧
        (doUnmount env st props).props.startupStorage = "" ∧
        (doUnmount env st props).props.startupTrigger = "0") ∧
     (props.startupStorage ≠ stableNameOf st →
        (doUnmount env st props).props.startupPath = props.startupPath ∧
        (doUnmount env st props).props.startupStorage = props.startupStorage ∧
        (doUnmount env st props).props.startupTrigger = props.startupTrigger)) ∧
    ((props.custStorage = stableNameOf st →
        (doUnmount env st props).props.custPath = "" ∧
        (doUnmount env st props).props.custStorage = "" ∧
        (doUnmount env st props).props.custTrigger = "0") ∧
     (props.custStorage ≠ stableNameOf st →
        (doUnmount env st props).props.custPath = props.custPath ∧
        (doUnmount env st props).props.custStorage = props.custStorage ∧
        (doUnmount env st props).props.custTrigger = props.custTrigger)) := by
  rw [doUnmount_props]
  by_cases h1 : props.updateStorage = stableNameOf st <;>
    by_cases h2 : props.startupStorage = stableNameOf st <;>
    by_cases h3 : props.custStorage = stableNameOf st <;>
    simp [h1, h2, h3]

/-- Witness for C4: unmounting `volA` clears the update slot claimed under
`volA`'s stable name and leaves the startup slot, claimed by a different
volume, untouched. -/
theorem C4_unmount_slot_clear_iff_name_matches_witness :
    (doUnmount envBase volA propsClaimed).props.updateStorage = "" ∧
    (doUnmount envBase volA propsClaimed).props.updateTrigger = "0" ∧
    (doUnmount envBase volA propsClaimed).props.startupStorage = "other-volume" ∧
    (doUnmount envBase volA propsClaimed).props.startupTrigger = "1" := by
  have h := C4_unmount_slot_clear_iff_name_matches envBase volA propsClaimed
  refine ⟨(h.1.1 (by decide)).2.1, (h.1.1 (by decide)).2.2, ?_, ?_⟩
  · exact ((h.2.1).2 (by decide)).2.1
  · exact ((h.2.1).2 (by decide)).2.2

/-- **C9**: mounting a volume whose visible flag is clear never forks the
bridge process, never enters the readiness polling loop, and leaves
`mFusePid` untouched; and when the native-mount stage succeeds (vfat medium,
probe, directory preparation and mount all fine) the call returns success
right after the hook stage. -/
theorem C9_invisible_mount_never_spawns_fuse (env : Env) (st : VolState) (props : Props)
    (hvis : st.visible = false) :
    ExtCall.forkCall ∉ (doMount env st props).calls ∧
    (∀ q, ExtCall.waitFuseReady q ∉ (doMount env st props).calls) ∧
    (doMount env st props).st.fusePid = st.fusePid ∧
    (env.metaFsType = "vfat" → env.vfatCheckRes = 0 → (∀ p, env.prepareDirRes p = 0) →
      env.vfatMountRes = 0 → (doMount env st props).res = OK) := by
  refine ⟨?_, ?_, ?_, ?_⟩
  · intro hc
    have := doMount_tags_not_visible env st props hvis _ hc
    simp [tag] at this
  · intro q hc
    have := doMount_tags_not_visible env st props hvis _ hc
    simp [tag] at this
  · rcases doMount_st_not_visible env st props hvis with h | h <;> rw [h]
    · rfl
    · rw [sessionSt_fusePid]
      rfl
  · intro h1 h2 h3 h4
    rw [doMount_eq_vfatProbe env st props (Or.inl h1) h2]
    dsimp only
    rw [doMountPaths_eq_prepOk env _ props false h3]
    dsimp only
    rw [doMountNative_eq_vfat_ok _ _ _ _ _ _ _ _ _ _ h4]
    dsimp only
    exact (doMountHooks_not_visible env (sessionSt (readMetadata env st).1) props
      _ _ _ _ _ _ _ hvis).1

/-- Witness for C9: mounting the non-visible `volA` in the all-succeeding
environment returns success, records no fork and no readiness wait, and
leaves the pid at zero. -/
theorem C9_invisible_mount_never_spawns_fuse_witness :
    ExtCall.forkCall ∉ (doMount envBase volA propsIdle).calls ∧
    (doMount envBase volA propsIdle).st.fusePid = volA.fusePid ∧
    (doMount envBase volA propsIdle).res = OK := by
  have h := C9_invisible_mount_never_spawns_fuse envBase volA propsIdle rfl
  exact ⟨h.1, h.2.2.1, h.2.2.2 rfl rfl (fun _ => rfl) rfl⟩

/-- **C10**: the naming scheme: the volume id is `"public:<major>:<minor>"`
(device 179:1 gives `"public:179:1"`), the device node lives under
`/dev/block/vold/`, the stable name is the fs uuid when non-empty and the
volume id otherwise, and a mount that passes the probe sets the raw path to
`"/mnt/media_rw/" + stableName` and the three bridged views to the
`default`/`read`/`write` runtime roots plus the stable name; with uuid
`"ABCD-1234"` the raw path uses `"ABCD-1234"` instead of the id. -/
theorem C10_naming_scheme (majorNum minorNum : Nat) (env : Env) (st0 : VolState)
    (props : Props) (h1 : env.metaFsType = "vfat") (h2 : env.vfatCheckRes = 0) :
    (mkPublicVolume majorNum minorNum).id =
      "public:" ++ toString majorNum ++ ":" ++ toString minorNum ∧
    (mkPublicVolume majorNum minorNum).devPath =
      "/dev/block/vold/" ++ (mkPublicVolume majorNum minorNum).id ∧
    (mkPublicVolume 179 1).id = "public:179:1" ∧
    stableNameOf (mkPublicVolume 179 1) = "public:179:1" ∧
    (doMount env st0 props).st.rawPath =
      "/mnt/media_rw/" ++ (if env.metaFsUuid = "" then st0.id else env.metaFsUuid) ∧
    (doMount env st0 props).st.fuseDefault =
      "/mnt/runtime/default/" ++ (if env.metaFsUuid = "" then st0.id else env.metaFsUuid) ∧
    (doMount env st0 props).st.fuseRead =
      "/mnt/runtime/read/" ++ (if env.metaFsUuid = "" then st0.id else env.metaFsUuid) ∧
    (doMount env st0 props).st.fuseWrite =
      "/mnt/runtime/write/" ++ (if env.metaFsUuid = "" then st0.id else env.metaFsUuid) ∧
    (doMount { envBase with metaFsUuid := "ABCD-1234" } volA propsIdle).st.rawPath =
      "/mnt/media_rw/ABCD-1234" := by
  refine ⟨rfl, rfl, by decide, by decide, ?_, ?_, ?_, ?_, by decide⟩
  all_goals
    rw [doMount_eq_vfatProbe env st0 props (Or.inl h1) h2]
    dsimp only
    rcases doMountPaths_st env (readMetadata env st0).1 props false with hst | hst <;>
      rw [hst] <;>
      simp [sessionSt_rawPath, sessionSt_fuseDefault, sessionSt_fuseRead,
            sessionSt_fuseWrite, stableNameOf, readMetadata_st]

/-- Witness for C10: device 179:1 with empty uuid yields id and raw path
`"public:179:1"` / `"/mnt/media_rw/public:179:1"`, and with uuid
`"ABCD-1234"` the raw path becomes `"/mnt/media_rw/ABCD-1234"`. -/
theorem C10_naming_scheme_witness :
    (mkPublicVolume 179 1).id = "public:179:1" ∧
    (doMount envBase volA propsIdle).st.rawPath = "/mnt/media_rw/public:179:1" ∧
    (doMount { envBase with metaFsUuid := "ABCD-1234" } volA propsIdle).st.rawPath =
      "/mnt/media_rw/ABCD-1234" := by
  have h := C10_naming_scheme 179 1 envBase volA propsIdle rfl rfl
  refine ⟨h.2.2.1, ?_, h.2.2.2.2.2.2.2.2⟩
  rw [h.2.2.2.2.1]
  decide

/-- **C1** (code bug): when the probe selects the ntfs family and
`Ntfs::doMount` fails, `doMount` does NOT abort with `- EIO`: the failure
branch in the source only logs (there is no `return` in it, unlike the
parallel vfat branch), so the call continues into the post-mount hooks (the
OTA trigger file is probed) and returns success over an unmounted raw path.
On the vfat side the claim does hold: a failed `vfat::Mount` returns `- EIO`
and the trace ends at the mount call, before any hook check. -/
theorem C1_ntfs_mount_failure_not_aborted :
    (doMount envNtfsMountFail volA propsIdle).res = OK ∧
    ExtCall.ntfsDoMount volA.devPath "/mnt/media_rw/public:179:1"
      ∈ (doMount envNtfsMountFail volA propsIdle).calls ∧
    ExtCall.accessFOK "/mnt/media_rw/public:179:1/OTA/update.zip"
      ∈ (doMount envNtfsMountFail volA propsIdle).calls ∧
    (doMount envVfatMountFail volA propsIdle).res = - EIO ∧
    (doMount envVfatMountFail volA propsIdle).calls =
      [ExtCall.readMetadataUntrusted "/dev/block/vold/public:179:1",
       ExtCall.notifyFsType "vfat", ExtCall.notifyFsUuid "", ExtCall.notifyFsLabel "",
       ExtCall.vfatCheck "/dev/block/vold/public:179:1",
       ExtCall.prepareDir "/mnt/media_rw/public:179:1",
       ExtCall.prepareDir "/mnt/runtime/default/public:179:1",
       ExtCall.prepareDir "/mnt/runtime/read/public:179:1",
       ExtCall.prepareDir "/mnt/runtime/write/public:179:1",
       ExtCall.vfatMount "/dev/block/vold/public:179:1" "/mnt/media_rw/public:179:1"] := by
  decide

/-- Counterexample to **C2** as stated: a visible mount whose `fork` fails
returns the fork `-errno` (here `-11`) but leaves `mFusePid = -1` — a
non-zero value while no bridge process is alive; the source returns right
after the `mFusePid == -1` check without resetting the field. -/
theorem C2_counterexample_fork_failure_leaves_nonzero_pid :
    (doMount envForkFail volAV propsIdle).res = -11 ∧
    (doMount envForkFail volAV propsIdle).st.fusePid = -1 ∧
    (doMount envForkFail volAV propsIdle).st.fusePid ≠ 0 := by
  decide

/-- **C2** (amended): `mFusePid` is zero at construction; a `doMount` call
either leaves it unchanged (and then no fork was attempted) or writes the
`fork` result into it; a `doMount` whose fork fails returns `-errno` and
leaves `mFusePid = -1` (non-zero) rather than clearing it; and `doUnmount`
signals, reaps and zeroes the pid exactly when it was positive, leaving it
unchanged otherwise. -/
theorem C2_fusePid_lifecycle_amended :
    (∀ ma mi, (mkPublicVolume ma mi).fusePid = 0) ∧
    (∀ env st props,
      ((doMount env st props).st.fusePid = st.fusePid ∧
       ExtCall.forkCall ∉ (doMount env st props).calls) ∨
      ((doMount env st props).st.fusePid = env.forkRes ∧
       ExtCall.forkCall ∈ (doMount env st props).calls)) ∧
    (∀ env st props, env.forkRes = -1 →
      ExtCall.forkCall ∈ (doMount env st props).calls →
      (doMount env st props).res = -env.forkErrno ∧
      (doMount env st props).st.fusePid = -1) ∧
    (∀ env st props, st.fusePid > 0 →
      (doUnmount env st props).st.fusePid = 0 ∧
      ExtCall.killTerm st.fusePid ∈ (doUnmount env st props).calls ∧
      ExtCall.waitPid st.fusePid ∈ (doUnmount env st props).calls) ∧
    (∀ env st props, ¬ st.fusePid > 0 →
      (doUnmount env st props).st.fusePid = st.fusePid) := by
  refine ⟨fun ma mi => rfl, doMount_fusePid_cases,
    fun env st props hf hc => doMount_fork_fail env st props hf hc, ?_, ?_⟩
  · intro env st props hp
    refine ⟨?_, ?_, ?_⟩
    · rw [doUnmount_st]
      simp [hp]
    · rw [doUnmount_calls]
      simp [hp]
    · rw [doUnmount_calls]
      simp [hp]
  · intro env st props hp
    rw [doUnmount_st]
    simp [hp]

/-- Witness for the amended C2: the freshly constructed volume has pid zero;
unmounting with pid 77 signals and reaps 77 and clears the field; and the
concrete failed-fork mount leaves the pid at `-1`. -/
theorem C2_fusePid_lifecycle_amended_witness :
    (mkPublicVolume 179 1).fusePid = 0 ∧
    (doUnmount envBase { volAV with fusePid := 77 } propsIdle).st.fusePid = 0 ∧
    ExtCall.killTerm 77 ∈ (doUnmount envBase { volAV with fusePid := 77 } propsIdle).calls ∧
    (doMount envForkFail volAV propsIdle).st.fusePid = -1 := by
  have h := C2_fusePid_lifecycle_amended
  refine ⟨h.1 179 1, ?_, ?_, ?_⟩
  · exact (h.2.2.2.1 envBase _ propsIdle (by decide)).1
  · exact (h.2.2.2.1 envBase _ propsIdle (by decide)).2.1
  · exact (h.2.2.1 envForkFail volAV propsIdle (by decide) (by decide)).2

/-- **C3**: the probe runs with fixed precedence: `vfat::Check` is always
invoked for a supported fsType; `Ntfs::check` is invoked exactly when the
vfat check failed, and then after the vfat check in the trace; and when both
checks fail the mount returns `- EIO` with no native mount call of either
family in the trace. -/
theorem C3_probe_precedence (env : Env) (st : VolState) (props : Props)
    (hsup : env.metaFsType = "vfat" ∨ env.metaFsType = "ntfs") :
    ExtCall.vfatCheck st.devPath ∈ (doMount env st props).calls ∧
    (ExtCall.ntfsCheck st.devPath ∈ (doMount env st props).calls ↔
      env.vfatCheckRes ≠ 0) ∧
    (env.vfatCheckRes ≠ 0 →
      List.Sublist [ExtCall.vfatCheck st.devPath, ExtCall.ntfsCheck st.devPath]
        (doMount env st props).calls) ∧
    (env.vfatCheckRes ≠ 0 → env.ntfsCheckRes ≠ 0 →
      (doMount env st props).res = - EIO ∧
      (∀ d p, ExtCall.vfatMount d p ∉ (doMount env st props).calls) ∧
      (∀ d p, ExtCall.ntfsDoMount d p ∉ (doMount env st props).calls)) := by
  by_cases hv : env.vfatCheckRes = 0
  · rw [doMount_eq_vfatProbe env st props hsup hv, readMetadata_devPath]
    dsimp only
    refine ⟨by simp, ?_, fun h => absurd hv h, fun h => absurd hv h⟩
    constructor
    · intro hc
      exfalso
      rw [List.mem_append, List.mem_append] at hc
      rcases hc with (hc | hc) | hc
      · have := readMetadata_tags env st _ hc
        simp [tag] at this
      · simp at hc
      · have := doMountPaths_tags env _ props false _ hc
        simp [tag] at this
    · intro h
      exact absurd hv h
  · by_cases hn : env.ntfsCheckRes = 0
    · rw [doMount_eq_ntfsProbe env st props hsup hv hn, readMetadata_devPath]
      dsimp only
      refine ⟨by simp, ⟨fun _ => hv, fun _ => by simp⟩, ?_, fun _ h => absurd hn h⟩
      intro _
      exact (List.sublist_append_right _ _).trans (List.sublist_append_left _ _)
    · rw [doMount_eq_bothFail env st props hsup hv hn, readMetadata_devPath]
      dsimp only
      refine ⟨by simp, ⟨fun _ => hv, fun _ => by simp⟩, ?_, ?_⟩
      · intro _
        exact List.sublist_append_right _ _
      · intro _ _
        refine ⟨rfl, ?_, ?_⟩ <;>
          intro d p hc <;> simp [readMetadata] at hc

/-- Witness for C3: on a medium failing both checks, both checkers appear in
the trace and the mount returns `- EIO` with no native mount call. -/
theorem C3_probe_precedence_witness :
    ExtCall.vfatCheck volA.devPath ∈ (doMount envBothFail volA propsIdle).calls ∧
    ExtCall.ntfsCheck volA.devPath ∈ (doMount envBothFail volA propsIdle).calls ∧
    (doMount envBothFail volA propsIdle).res = - EIO ∧
    ExtCall.vfatMount volA.devPath "/mnt/media_rw/public:179:1"
      ∉ (doMount envBothFail volA propsIdle).calls := by
  have h := C3_probe_precedence envBothFail volA propsIdle (Or.inl rfl)
  refine ⟨h.1, h.2.1.mpr (by decide), (h.2.2.2 (by decide) (by decide)).1, ?_⟩
  exact (h.2.2.2 (by decide) (by decide)).2.1 volA.devPath "/mnt/media_rw/public:179:1"

/-- **C8**: in a mount that reaches the hook stage, the post-mount hooks are
evaluated in the fixed order OTA-update, startup, cust: a hook whose pre-read
trigger flag is already claimed is skipped (its trigger file is not even
checked) and evaluation moves on; the first hook whose flag is idle and whose
trigger file exists claims its slot (path, storage = stable name, trigger
`"1"`) and stops the chain (no later trigger file is checked, no later slot
is touched); a hook whose flag is idle and whose trigger file is absent
passes control to the next hook.  The three iffs characterise exactly when
each trigger file is `access`-checked, and the six slot clauses characterise
each slot's final value. -/
theorem C8_hooks_fixed_order_first_fire_wins (env : Env) (st0 : VolState) (props : Props)
    (h1 : env.metaFsType = "vfat") (h2 : env.vfatCheckRes = 0)
    (h3 : ∀ p, env.prepareDirRes p = 0) (h4 : env.vfatMountRes = 0)
    (upd stp cup n : String)
    (hupd : upd = updateTriggerPathOf (readMetadata env st0).1)
    (hstp : stp = startupTriggerPathOf (readMetadata env st0).1)
    (hcup : cup = custTriggerPathOf (readMetadata env st0).1)
    (hn : n = stableNameOf (readMetadata env st0).1) :
    (ExtCall.accessFOK upd ∈ (doMount env st0 props).calls ↔
      parseBool props.updateTrigger false = false) ∧
    (ExtCall.accessFOK stp ∈ (doMount env st0 props).calls ↔
      (¬(parseBool props.updateTrigger false = false ∧ env.fileExists upd = true) ∧
       parseBool props.startupTrigger false = false)) ∧
    (ExtCall.accessFOK cup ∈ (doMount env st0 props).calls ↔
      (¬(parseBool props.updateTrigger false = false ∧ env.fileExists upd = true) ∧
       ¬(parseBool props.startupTrigger false = false ∧ env.fileExists stp = true) ∧
       parseBool props.custTrigger false = false)) ∧
    ((parseBool props.updateTrigger false = false ∧ env.fileExists upd = true) →
      ((doMount env st0 props).props.updateStorage = n ∧
       (doMount env st0 props).props.updatePath = upd ∧
       (doMount env st0 props).props.updateTrigger = "1")) ∧
    (¬(parseBool props.updateTrigger false = false ∧ env.fileExists upd = true) →
      ((doMount env st0 props).props.updatePath = props.updatePath ∧
       (doMount env st0 props).props.updateStorage = props.updateStorage ∧
       (doMount env st0 props).props.updateTrigger = props.updateTrigger)) ∧
    ((¬(parseBool props.updateTrigger false = false ∧ env.fileExists upd = true) ∧
      parseBool props.startupTrigger false = false ∧ env.fileExists stp = true) →
      ((doMount env st0 props).props.startupStorage = n ∧
       (doMount env st0 props).props.startupPath = stp ∧
       (doMount env st0 props).props.startupTrigger = "1")) ∧
    (¬(¬(parseBool props.updateTrigger false = false ∧ env.fileExists upd = true) ∧
       parseBool props.startupTrigger false = false ∧ env.fileExists stp = true) →
      ((doMount env st0 props).props.startupPath = props.startupPath ∧
       (doMount env st0 props).props.startupStorage = props.startupStorage ∧
       (doMount env st0 props).props.startupTrigger = props.startupTrigger)) ∧
    ((¬(parseBool props.updateTrigger false = false ∧ env.fileExists upd = true) ∧
      ¬(parseBool props.startupTrigger false = false ∧ env.fileExists stp = true) ∧
      parseBool props.custTrigger false = false ∧ env.fileExists cup = true) →
      ((doMount env st0 props).props.custStorage = n ∧
       (doMount env st0 props).props.custPath = cup ∧
       (doMount env st0 props).props.custTrigger = "1")) ∧
    (¬(¬(parseBool props.updateTrigger false = false ∧ env.fileExists upd = true) ∧
       ¬(parseBool props.startupTrigger false = false ∧ env.fileExists stp = true) ∧
       parseBool props.custTrigger false = false ∧ env.fileExists cup = true) →
      ((doMount env st0 props).props.custPath = props.custPath ∧
       (doMount env st0 props).props.custStorage = props.custStorage ∧
       (doMount env st0 props).props.custTrigger = props.custTrigger)) := by
  subst hupd hstp hcup hn
  have e := doMount_eq_vfatProbe env st0 props (Or.inl h1) h2
  rw [doMountPaths_eq_prepOk env _ props false h3] at e
  dsimp only at e
  rw [doMountNative_eq_vfat_ok _ _ _ _ _ _ _ _ _ _ h4] at e
  dsimp only at e
  have hprops : (doMount env st0 props).props =
      (hookUpdate env (stableNameOf (readMetadata env st0).1)
        (updateTriggerPathOf (readMetadata env st0).1)
        (startupTriggerPathOf (readMetadata env st0).1)
        (custTriggerPathOf (readMetadata env st0).1)
        (parseBool props.updateTrigger false) (parseBool props.startupTrigger false)
        (parseBool props.custTrigger false) props).1 := by
    rw [e]
    exact doMountHooks_props env _ props _ _ _ _ _ _ _
  have hcalls : ∀ q, (ExtCall.accessFOK q ∈ (doMount env st0 props).calls ↔
      ExtCall.accessFOK q ∈
        (hookUpdate env (stableNameOf (readMetadata env st0).1)
          (updateTriggerPathOf (readMetadata env st0).1)
          (startupTriggerPathOf (readMetadata env st0).1)
          (custTriggerPathOf (readMetadata env st0).1)
          (parseBool props.updateTrigger false) (parseBool props.startupTrigger false)
          (parseBool props.custTrigger false) props).2) := by
    intro q
    rw [e]
    dsimp only
    simp [readMetadata, doMountHooks_mem_accessFOK]
  have d12 : updateTriggerPathOf (readMetadata env st0).1 ≠
      startupTriggerPathOf (readMetadata env st0).1 := by
    unfold updateTriggerPathOf startupTriggerPathOf
    exact append_ne_of_length_ne _ _ _ (by decide)
  have d13 : updateTriggerPathOf (readMetadata env st0).1 ≠
      custTriggerPathOf (readMetadata env st0).1 := by
    unfold updateTriggerPathOf custTriggerPathOf
    exact append_ne_of_length_ne _ _ _ (by decide)
  have d23 : startupTriggerPathOf (readMetadata env st0).1 ≠
      custTriggerPathOf (readMetadata env st0).1 := by
    unfold startupTriggerPathOf custTriggerPathOf
    exact append_ne_of_length_ne _ _ _ (by decide)
  simp only [hcalls, hprops]
  rcases hu : parseBool props.updateTrigger false <;>
    rcases hsb : parseBool props.startupTrigger false <;>
    rcases hcb : parseBool props.custTrigger false <;>
    rcases e1 : env.fileExists (updateTriggerPathOf (readMetadata env st0).1) <;>
    rcases e2 : env.fileExists (startupTriggerPathOf (readMetadata env st0).1) <;>
    rcases e3 : env.fileExists (custTriggerPathOf (readMetadata env st0).1) <;>
    simp [hookUpdate_calls, hookStartup_calls, hookCust_calls, hookUpdate_props,
      hookStartup_props, hookCust_props, e1, e2, e3, d12, d13, d23,
      Ne.symm d12, Ne.symm d13, Ne.symm d23]

/-- Witness for C8: with only the OTA trigger file present and all slots
idle, mounting `volA` checks and claims the OTA slot under `volA`'s stable
name, and the startup trigger file is never checked, its slot left idle. -/
theorem C8_hooks_fixed_order_first_fire_wins_witness :
    ExtCall.accessFOK (updateTriggerPathOf (readMetadata envOTA volA).1)
      ∈ (doMount envOTA volA propsIdle).calls ∧
    (doMount envOTA volA propsIdle).props.updateStorage = "public:179:1" ∧
    (doMount envOTA volA propsIdle).props.updateTrigger = "1" ∧
    ExtCall.accessFOK (startupTriggerPathOf (readMetadata envOTA volA).1)
      ∉ (doMount envOTA volA propsIdle).calls ∧
    (doMount envOTA volA propsIdle).props.startupTrigger = "" := by
  have h := C8_hooks_fixed_order_first_fire_wins envOTA volA propsIdle rfl rfl
    (fun _ => rfl) rfl
    (updateTriggerPathOf (readMetadata envOTA volA).1)
    (startupTriggerPathOf (readMetadata envOTA volA).1)
    (custTriggerPathOf (readMetadata envOTA volA).1)
    (stableNameOf (readMetadata envOTA volA).1) rfl rfl rfl rfl
  refine ⟨h.1.mpr (by decide), ?_, ?_, ?_, ?_⟩
  · have hh := (h.2.2.2.1 ⟨by decide, by decide⟩).1
    rw [hh]
    decide
  · exact (h.2.2.2.1 ⟨by decide, by decide⟩).2.2
  · intro hc
    exact (h.2.1.mp hc).1 ⟨by decide, by decide⟩
  · have hh := (h.2.2.2.2.2.2.1 (by
      intro hx
      exact hx.1 ⟨by decide, by decide⟩)).2.2
    rw [hh]
    rfl

end PublicVolume
